import Mathlib

/-!
Verification of the A2A payment-mandate agent.

This file shallowly embeds the mandate/payment/task core of the repository:

* `AgentProduction` models `agent_production.py` together with the
  repositories of `database.py` (SQLAlchemy tables become association lists
  keyed by id; each repository method that issues its own `commit()` is one
  state-to-state function).
* `AgentAp2` models `agent_ap2.py` (plain in-process dictionaries).

Conventions: timestamps are `Nat` (the wall clock is passed explicitly as
`now`); prices are `Rat` (the Python floats only ever hold exact decimal
catalog prices that are copied around, never computed with); freshly drawn
`uuid4` identifiers are explicit parameters; the Gemini generation call is an
explicit `Except String String` parameter (`.ok text` for a successful
generation, `.error e` for any exception raised inside the `try` body).
JSON responses are flattened to records holding the claim-relevant fields.
Wall-clock audit columns (`created_at`, `started_at`, `completed_at`,
`processed_at`) are not modelled; no claim mentions them.
-/

namespace A2A

abbrev Price := Rat

/-- Association-list lookup, the model of `dict[k]` / `query(...).filter(id == k).first()`. -/
def dlookup {α : Type} : List (String × α) → String → Option α
  | [], _ => none
  | p :: rest, k => if p.1 = k then some p.2 else dlookup rest k

/-- In-place replacement of the value bound to an existing key (the model of a
SQLAlchemy `setattr` + `commit()` on a fetched row: absent keys are untouched). -/
def aset {α : Type} (l : List (String × α)) (k : String) (v : α) : List (String × α) :=
  l.map (fun p => if p.1 = k then (k, v) else p)

/-- Python dict assignment `d[k] = v`: replaces an existing binding, else adds one. -/
def dset {α : Type} (l : List (String × α)) (k : String) (v : α) : List (String × α) :=
  match dlookup l k with
  | some _ => aset l k v
  | none => (k, v) :: l

/-- Update the value bound to a key, if present (model of `d[k]["field"] = v`). -/
def dadjust {α : Type} (l : List (String × α)) (k : String) (f : α → α) : List (String × α) :=
  l.map (fun p => if p.1 = k then (k, f p.2) else p)

/-! ## The production agent: `agent_production.py` + `database.py` -/

namespace AgentProduction

/-- A row of the `cart_mandates` table.  `amount`/`currency` stand for the
`total` of the serialized `cart_data` JSON (the only part of it the code reads back). -/
structure CartRec where
  skill_id : String
  task_description : String
  amount : Price
  currency : String
  expires_at : Nat
  is_used : Bool
deriving DecidableEq

/-- A row of the `payment_mandates` table. -/
structure PaymentRec where
  cart_id : String
  amount : Price
  currency : String
  status : String
deriving DecidableEq

/-- A row of the `tasks` table. -/
structure TaskRec where
  skill_id : String
  status : String
  user_message : Option String
  result : Option String
  error : Option String
  price : Price
  currency : String
  cart_id : Option String
  payment_mandate_id : Option String
deriving DecidableEq

/-- The persistent store: the three tables of `database.py`, keyed by primary key. -/
structure DB where
  tasks : List (String × TaskRec)
  carts : List (String × CartRec)
  payments : List (String × PaymentRec)
deriving DecidableEq

def DB.empty : DB := ⟨[], [], []⟩

/-- `CartMandateRepository.mark_used`: fetch the row, set `is_used = True`
unconditionally, commit; returns `True` whenever the cart exists (also when it
was already used) and `False` only when it is missing.  Note this is a plain
read-then-write, not a compare-and-set on `is_used`. -/
def mark_used (db : DB) (cartId : String) : Bool × DB :=
  match dlookup db.carts cartId with
  | none => (false, db)
  | some cart => (true, { db with carts := aset db.carts cartId { cart with is_used := true } })

/-- `TaskRepository.update`: fetch the row, apply the field updates, commit;
a no-op when the task id is absent. -/
def task_update (db : DB) (taskId : String) (f : TaskRec → TaskRec) : DB :=
  match dlookup db.tasks taskId with
  | none => db
  | some _ => { db with tasks := dadjust db.tasks taskId f }

/-- An `HTTPException(status_code, detail)` surfaced as a JSON-RPC error. -/
structure HError where
  status_code : Nat
  detail : String
deriving DecidableEq

/-- The `PRICING` catalog of `config.py` (prices only; descriptions are not
read by any modelled branch). -/
def PRICING : List (String × Price) :=
  [("business-analysis", 50), ("market-research", 75),
   ("strategy-planning", 100), ("quick-consult", 25)]

def default_currency : String := "USD"

/-- The cart expiry window (`cart_expiry_hours = 1`), in seconds. -/
def cart_expiry_window : Nat := 3600

/-- The result JSON of a successful `processPayment`. -/
structure PayResp where
  success : Bool
  task_id : String
  payment_mandate_id : String
  status : String
deriving DecidableEq

/-- The result JSON of `createCartMandate` (claim-relevant fields). -/
structure CartResp where
  cart_id : String
  amount : Price
  currency : String
deriving DecidableEq

/-- The result JSON of `submitTask` / `getTaskStatus` (claim-relevant fields):
`text` is the single text part of `message`, `metadata_price`/`metadata_currency`
the `metadata` block present on completed tasks, `next_steps` the ordered method
names of the `next_steps.ap2_flow` hint. -/
structure TaskResp where
  taskId : String
  status : String
  text : Option String
  metadata_price : Option Price
  metadata_currency : Option String
  next_steps : Option (List String)
deriving DecidableEq

/-- `create_cart_mandate`: validate the skill against the catalog, snapshot its
price, persist the cart with `is_used = False` and `expires_at = now + window`.
`pricing` is the value of the module-global `PRICING` at call time; `cartId`
the freshly drawn uuid.  A duplicate primary key makes the insert's commit
raise, which the generic handler turns into a 500 with no state change. -/
def create_cart_mandate (pricing : List (String × Price)) (db : DB)
    (skillId taskDescription : String) (cartId : String) (now : Nat) :
    Except HError CartResp × DB :=
  match dlookup pricing skillId with
  | none => (.error ⟨400, "Invalid skillId: " ++ skillId⟩, db)
  | some price =>
    match dlookup db.carts cartId with
    | some _ => (.error ⟨500, "Failed to create cart"⟩, db)
    | none =>
      let cart : CartRec :=
        { skill_id := skillId, task_description := taskDescription,
          amount := price, currency := default_currency,
          expires_at := now + cart_expiry_window, is_used := false }
      (.ok { cart_id := cartId, amount := price, currency := default_currency },
       { db with carts := (cartId, cart) :: db.carts })

/-- The `payment_mandates` row written by `process_payment`. -/
def mkPaymentRec (cartId : String) (cart : CartRec) : PaymentRec :=
  { cart_id := cartId, amount := cart.amount, currency := cart.currency,
    status := "authorized" }

/-- The `tasks` row written by `process_payment` after a successful payment. -/
def mkPaidTask (cart : CartRec) (cartId pmId : String) : TaskRec :=
  { skill_id := cart.skill_id, status := "payment_authorized",
    user_message := none, result := none, error := none,
    price := cart.amount, currency := default_currency,
    cart_id := some cartId, payment_mandate_id := some pmId }

/-- `process_payment`: look the cart up; fail 404 if absent, 400 "Cart already
used" if `is_used`, 400 "Cart expired" if `expires_at < now`; otherwise perform
three separately committed writes: create the PaymentMandate row, `mark_used`
the cart, create the task row (status `payment_authorized`).  `pmId`/`taskId`
are the freshly drawn uuids; a primary-key collision makes that write's commit
raise, caught by the generic handler as a 500 — note such a failure at the task
write leaves the first two writes already durably committed. -/
def process_payment (db : DB) (cartId : String) (now : Nat) (pmId taskId : String) :
    Except HError PayResp × DB :=
  match dlookup db.carts cartId with
  | none => (.error ⟨404, "Cart not found or expired"⟩, db)
  | some cart =>
    if cart.is_used then (.error ⟨400, "Cart already used"⟩, db)
    else if cart.expires_at < now then (.error ⟨400, "Cart expired"⟩, db)
    else
      match dlookup db.payments pmId with
      | some _ => (.error ⟨500, "Payment processing failed"⟩, db)
      | none =>
        let db1 : DB := { db with payments := (pmId, mkPaymentRec cartId cart) :: db.payments }
        let db2 : DB := (mark_used db1 cartId).2
        match dlookup db2.tasks taskId with
        | some _ => (.error ⟨500, "Payment processing failed"⟩, db2)
        | none =>
          let db3 : DB := { db2 with tasks := (taskId, mkPaidTask cart cartId pmId) :: db2.tasks }
          (.ok { success := true, task_id := taskId, payment_mandate_id := pmId,
                 status := "payment_authorized" }, db3)

/-- The `if payment and payment.status == "authorized"` test of `submit_task`. -/
def paymentAuthorized (db : DB) : Option String → Bool
  | none => false
  | some pid =>
    match dlookup db.payments pid with
    | some p => decide (p.status = "authorized")
    | none => false

/-- `process_task`: set the task `working`, call the generation engine, then
either set it `completed` with the result, or — on any exception — set it
`failed` with the error and re-raise as an HTTP 500.  `pricing` is the global
`PRICING` at execution time (read for the response metadata). -/
def process_task (pricing : List (String × Price)) (db : DB)
    (taskId skillId userMsg : String) (gen : Except String String) :
    Except HError TaskResp × DB :=
  let db1 := task_update db taskId (fun t => { t with status := "working" })
  match gen with
  | .ok text =>
    let db2 := task_update db1 taskId
      (fun t => { t with status := "completed", result := some text })
    (.ok { taskId := taskId, status := "completed", text := some text,
           metadata_price := dlookup pricing skillId,
           metadata_currency := some default_currency, next_steps := none }, db2)
  | .error e =>
    let db2 := task_update db1 taskId
      (fun t => { t with status := "failed", error := some e })
    (.error ⟨500, "Task processing failed: " ++ e⟩, db2)

/-- `submit_task`: validate the skill (400 on an unknown id, before any write);
if `paymentMandateId` resolves to an authorized PaymentMandate, run
`process_task` synchronously; otherwise insert the task with status
`payment_required`, the catalog price, and the three-step `next_steps` hint.
`freshId` is the uuid used when no `taskId` is supplied; inserting a `taskId`
that already exists makes the commit raise, turned into a 500 with no state
change. -/
def submit_task (pricing : List (String × Price)) (db : DB)
    (taskId? : Option String) (freshId : String) (skillId userMsg : String)
    (pmId? : Option String) (gen : Except String String) :
    Except HError TaskResp × DB :=
  match dlookup pricing skillId with
  | none => (.error ⟨400, "Invalid skillId: " ++ skillId⟩, db)
  | some price =>
    let task_id := taskId?.getD freshId
    if paymentAuthorized db pmId? then
      process_task pricing db task_id skillId userMsg gen
    else
      match dlookup db.tasks task_id with
      | some _ => (.error ⟨500, "Task submission failed"⟩, db)
      | none =>
        let t : TaskRec :=
          { skill_id := skillId, status := "payment_required",
            user_message := some userMsg, result := none, error := none,
            price := price, currency := default_currency,
            cart_id := none, payment_mandate_id := none }
        (.ok { taskId := task_id, status := "payment_required",
               text := some "Payment required", metadata_price := none,
               metadata_currency := none,
               next_steps := some ["createIntentMandate", "createCartMandate", "processPayment"] },
         { db with tasks := (task_id, t) :: db.tasks })

/-- `get_task_status`: 404 if absent; otherwise the stored status, with the
stored result and the stored price/currency metadata when `completed`. -/
def get_task_status (db : DB) (taskId : String) : Except HError TaskResp :=
  match dlookup db.tasks taskId with
  | none => .error ⟨404, "Task not found"⟩
  | some t =>
    if t.status = "completed" then
      .ok { taskId := taskId, status := t.status, text := some (t.result.getD "Task completed"),
            metadata_price := some t.price, metadata_currency := some t.currency,
            next_steps := none }
    else
      .ok { taskId := taskId, status := t.status, text := none,
            metadata_price := none, metadata_currency := none, next_steps := none }

/-! ### `process_payment` cut at its database access points

Each constructor of `PPPhase` is the local state of one in-flight
`process_payment` request between two of its store accesses: the validating
read (`cart_repo.get` plus the `is_used`/expiry checks, no write), then the
three separately committed writes.  `validated`/`paid`/`marked` cache the cart
row read during validation, exactly as the Python local `cart_db` does.
Interleaving two such requests step-by-step is the concurrency model of two
parallel `processPayment` calls sharing one store. -/
inductive PPPhase where
  | start
  | validated (cart : CartRec)
  | paid (cart : CartRec)
  | marked (cart : CartRec)
  | done
  | failed (e : HError)
deriving DecidableEq

structure PPThread where
  cartId : String
  now : Nat
  pmId : String
  taskId : String
  phase : PPPhase
deriving DecidableEq

/-- One store access of an in-flight `process_payment` request (uuids assumed
fresh, so the primary-key guards cannot fire). -/
def ppStep (db : DB) (th : PPThread) : DB × PPThread :=
  match th.phase with
  | .start =>
    match dlookup db.carts th.cartId with
    | none => (db, { th with phase := .failed ⟨404, "Cart not found or expired"⟩ })
    | some cart =>
      if cart.is_used then (db, { th with phase := .failed ⟨400, "Cart already used"⟩ })
      else if cart.expires_at < th.now then (db, { th with phase := .failed ⟨400, "Cart expired"⟩ })
      else (db, { th with phase := .validated cart })
  | .validated cart =>
    ({ db with payments := (th.pmId, mkPaymentRec th.cartId cart) :: db.payments },
     { th with phase := .paid cart })
  | .paid cart => ((mark_used db th.cartId).2, { th with phase := .marked cart })
  | .marked cart =>
    ({ db with tasks := (th.taskId, mkPaidTask cart th.cartId th.pmId) :: db.tasks },
     { th with phase := .done })
  | .done => (db, th)
  | .failed _ => (db, th)

/-- Run two in-flight `process_payment` requests under a schedule: `true`
steps the first thread, `false` the second. -/
def runTwo : DB → PPThread → PPThread → List Bool → DB × PPThread × PPThread
  | db, a, b, [] => (db, a, b)
  | db, a, b, true :: rest =>
    let s := ppStep db a
    runTwo s.1 s.2 b rest
  | db, a, b, false :: rest =>
    let s := ppStep db b
    runTwo s.1 a s.2 rest

/-- Number of `payment_mandates` rows bound to a given cart id. -/
def countFor : List (String × PaymentRec) → String → Nat
  | [], _ => 0
  | p :: rest, c => (if p.2.cart_id = c then 1 else 0) + countFor rest c

/-! ### Sequential operation traces

One `Op` is one request handled to completion before the next (the sequential
execution model).  The read-only handlers (`getTaskStatus`, `sendMessage`,
`createIntentMandate`) never write to the store; the state-changing ones carry
the value of the module-global `PRICING` at call time and their freshly drawn
uuids. -/
inductive Op where
  | createCart (pricing : List (String × Price)) (skillId taskDescription cartId : String)
      (now : Nat)
  | processPayment (cartId : String) (now : Nat) (pmId taskId : String)
  | submitTask (pricing : List (String × Price)) (taskId? : Option String)
      (freshId skillId userMsg : String) (pmId? : Option String)
      (gen : Except String String)
  | readOnly

/-- The store after handling one request. -/
def stepOp (db : DB) : Op → DB
  | .createCart pricing s d c now => (create_cart_mandate pricing db s d c now).2
  | .processPayment c now pm t => (process_payment db c now pm t).2
  | .submitTask pricing tid fresh skill msg pm gen =>
      (submit_task pricing db tid fresh skill msg pm gen).2
  | .readOnly => db

/-- The store after handling a sequence of requests. -/
def runOps (db : DB) : List Op → DB
  | [] => db
  | op :: rest => runOps (stepOp db op) rest

def exceptOk {ε α : Type} : Except ε α → Bool
  | .ok _ => true
  | .error _ => false

/-- Whether the stored cart with this id exists and has `is_used = True`. -/
def cartUsed (db : DB) (c : String) : Bool :=
  match dlookup db.carts c with
  | some cart => cart.is_used
  | none => false

/-- How many of the requests in a trace are `processPayment` calls on the
given cart id that return success. -/
def countPaySuccess (db : DB) : List Op → String → Nat
  | [], _ => 0
  | op :: rest, c =>
    (match op with
     | .processPayment c' now pm t =>
       if c' = c ∧ exceptOk (process_payment db c' now pm t).1 then 1 else 0
     | _ => 0) + countPaySuccess (stepOp db op) rest c

/-- Store invariant: every cart id has at most one PaymentMandate bound to it,
and a cart with a PaymentMandate exists and is marked used. -/
def PayInv (db : DB) : Prop :=
  ∀ c, countFor db.payments c ≤ 1 ∧ (1 ≤ countFor db.payments c → cartUsed db c = true)

end AgentProduction

/-! ## The in-memory agent: `agent_ap2.py` -/

namespace AgentAp2

/-- A stored `CartMandate` (the fields the code reads back): the total of its
payment request, the display-item labels, and the cart expiry.  There is no
`is_used` flag in this variant. -/
structure Ap2Cart where
  total_amount : A2A.Price
  total_currency : String
  display_labels : List String
  cart_expiry : Nat
deriving DecidableEq

/-- A stored `PaymentMandate` (the fields the code reads back; `submit_task`
only tests membership). -/
structure Ap2Payment where
  cart_id : String
  amount : A2A.Price
deriving DecidableEq

/-- An entry of the `tasks` dict. -/
structure Ap2Task where
  skillId : String
  status : String
  userMessage : Option String
  result : Option String
  error : Option String
  price : A2A.Price
  currency : String
  cartId : Option String
  paymentMandateId : Option String
deriving DecidableEq

/-- The three module-level dicts. -/
structure St where
  tasks : List (String × Ap2Task)
  cart_mandates : List (String × Ap2Cart)
  payment_mandates : List (String × Ap2Payment)
deriving DecidableEq

def St.empty : St := ⟨[], [], []⟩

/-- The module-level `PRICING` dict, in insertion order. -/
def PRICING : List (String × A2A.Price) :=
  [("business-analysis", 50), ("market-research", 75),
   ("strategy-planning", 100), ("quick-consult", 25)]

/-- Does `needle` start at the head of `hay`? -/
def startsAt : List Char → List Char → Bool
  | [], _ => true
  | _ :: _, [] => false
  | a :: as, b :: bs => a == b && startsAt as bs

/-- Python's substring test `needle in hay`. -/
def strIn (needle hay : String) : Bool :=
  go needle.toList hay.toList
where
  go (n : List Char) (h : List Char) : Bool :=
    startsAt n h || match h with
      | [] => false
      | _ :: t => go n t

/-- The skill-extraction double loop of `process_payment`: for each display
item, the first `PRICING` key occurring in its label is assigned (the inner
loop breaks); later items overwrite earlier assignments. -/
def extract_skill (labels : List String) : Option String :=
  labels.foldl
    (fun acc label =>
      match (PRICING.map Prod.fst).find? (fun k => strIn k label) with
      | some s => some s
      | none => acc)
    none

/-- The result JSON of the ap2 `process_payment` (claim-relevant fields). -/
structure Ap2PayResp where
  success : Bool
  error : Option String
  task_id : Option String
  payment_mandate_id : Option String
  status : Option String
deriving DecidableEq

/-- The result JSON of the ap2 `submit_task`/`get_task_status` (claim-relevant
fields, flattened as in `AgentProduction.TaskResp`). -/
structure Ap2TaskResp where
  taskId : String
  status : String
  text : Option String
  metadata_price : Option A2A.Price
  metadata_currency : Option String
  next_steps : Option (List String)
deriving DecidableEq

/-- The ap2 `process_payment`: the only check is that the cart id is a key of
`cart_mandates` — neither reuse nor expiry is examined (this variant stores no
used flag and never reads `cart_expiry`).  On that single success path it
stores the payment mandate, extracts the skill from the display-item labels,
and creates a task with status `payment_authorized`. -/
def process_payment (st : St) (cartId : String) (pmId taskId : String) :
    Ap2PayResp × St :=
  match dlookup st.cart_mandates cartId with
  | none =>
    ({ success := false, error := some "Cart not found or expired",
       task_id := none, payment_mandate_id := none, status := none }, st)
  | some cart =>
    let pm1 := dset st.payment_mandates pmId ⟨cartId, cart.total_amount⟩
    let st1 : St := { st with payment_mandates := pm1 }
    match extract_skill cart.display_labels with
    | none =>
      ({ success := false, error := some "Could not determine service type from cart",
         task_id := none, payment_mandate_id := none, status := none }, st1)
    | some skill =>
      let task : Ap2Task :=
        { skillId := skill, status := "payment_authorized", userMessage := none,
          result := none, error := none, price := cart.total_amount,
          currency := "USD", cartId := some cartId, paymentMandateId := some pmId }
      ({ success := true, error := none, task_id := some taskId,
         payment_mandate_id := some pmId, status := some "payment_authorized" },
       { st1 with tasks := dset st1.tasks taskId task })

/-- The ap2 `process_task`: call the generation engine; on success set the
stored task `completed` with the result, on any exception set it `failed` with
the error — and in both cases answer in-band with a task response, never with
a transport-level error. -/
def process_task (st : St) (taskId skillId : String) (gen : Except String String) :
    Ap2TaskResp × St :=
  match gen with
  | .ok text =>
    let ts := dadjust st.tasks taskId (fun t => { t with status := "completed", result := some text })
    ({ taskId := taskId, status := "completed", text := some text,
       metadata_price := dlookup PRICING skillId, metadata_currency := some "USD",
       next_steps := none },
     { st with tasks := ts })
  | .error e =>
    let ts := dadjust st.tasks taskId (fun t => { t with status := "failed", error := some e })
    ({ taskId := taskId, status := "failed", text := some ("Error processing request: " ++ e),
       metadata_price := none, metadata_currency := none, next_steps := none },
     { st with tasks := ts })

/-- The ap2 `submit_task`: an unknown skill answers a `failed` response (no
task stored); otherwise the task is stored only if its id is new, with status
`working` when `paymentMandateId` is a key of `payment_mandates` and
`payment_required` otherwise; an authorized submission then runs
`process_task` synchronously, the rest get the `next_steps` hint. -/
def submit_task (st : St) (taskId? : Option String) (freshId : String)
    (skillId userMsg : String) (pmId? : Option String) (gen : Except String String) :
    Ap2TaskResp × St :=
  let task_id := taskId?.getD freshId
  match dlookup PRICING skillId with
  | none =>
    ({ taskId := task_id, status := "failed",
       text := some ("Unknown service: " ++ skillId), metadata_price := none,
       metadata_currency := none, next_steps := none }, st)
  | some price =>
    let authorized : Bool :=
      match pmId? with
      | some pid => (dlookup st.payment_mandates pid).isSome
      | none => false
    let newTask : Ap2Task :=
      { skillId := skillId,
        status := if authorized then "working" else "payment_required",
        userMessage := some userMsg, result := none, error := none,
        price := price, currency := "USD", cartId := none,
        paymentMandateId := none }
    let st1 : St :=
      match dlookup st.tasks task_id with
      | some _ => st
      | none => { st with tasks := dset st.tasks task_id newTask }
    if authorized then process_task st1 task_id skillId gen
    else
      ({ taskId := task_id, status := "payment_required",
         text := some "Payment required", metadata_price := none,
         metadata_currency := none,
         next_steps := some ["createIntentMandate", "createCartMandate", "processPayment"] },
       st1)

/-- The ap2 `get_task_status`: unknown ids answer a `failed` "Task not found"
response; otherwise the stored status, with result text and price metadata
when `completed`. -/
def get_task_status (st : St) (taskId : String) : Ap2TaskResp :=
  match dlookup st.tasks taskId with
  | none =>
    { taskId := taskId, status := "failed", text := some "Task not found",
      metadata_price := none, metadata_currency := none, next_steps := none }
  | some t =>
    if t.status = "completed" then
      { taskId := taskId, status := t.status, text := some (t.result.getD "Task completed"),
        metadata_price := some t.price, metadata_currency := some t.currency,
        next_steps := none }
    else
      { taskId := taskId, status := t.status, text := none,
        metadata_price := none, metadata_currency := none, next_steps := none }

end AgentAp2

/-! ## Lemmas about the store primitives -/

theorem dlookup_aset_self {α : Type} (l : List (String × α)) (k : String) (v : α) :
    dlookup (aset l k v) k = (dlookup l k).map (fun _ => v) := by
  induction l with
  | nil => rfl
  | cons p rest ih =>
    by_cases h : p.1 = k
    · simp [aset, dlookup, h]
    · simpa [aset, dlookup, h] using ih

theorem dlookup_aset_ne {α : Type} (l : List (String × α)) (k k' : String) (v : α)
    (h : k' ≠ k) : dlookup (aset l k v) k' = dlookup l k' := by
  induction l with
  | nil => rfl
  | cons p rest ih =>
    by_cases hp : p.1 = k
    · have hq : p.1 ≠ k' := by rw [hp]; exact Ne.symm h
      simp only [aset, List.map, if_pos hp, dlookup]
      rw [if_neg (Ne.symm h), if_neg hq]
      simpa [aset] using ih
    · simp only [aset, List.map, if_neg hp, dlookup]
      by_cases hq : p.1 = k'
      · simp [hq]
      · rw [if_neg hq, if_neg hq]
        simpa [aset] using ih

theorem dlookup_cons_ne {α : Type} (p : String × α) (l : List (String × α)) (k : String)
    (h : p.1 ≠ k) : dlookup (p :: l) k = dlookup l k := by
  simp [dlookup, h]

theorem dlookup_dadjust_self {α : Type} (l : List (String × α)) (k : String) (f : α → α) :
    dlookup (dadjust l k f) k = (dlookup l k).map f := by
  induction l with
  | nil => rfl
  | cons p rest ih =>
    by_cases h : p.1 = k
    · simp [dadjust, dlookup, h]
    · simpa [dadjust, dlookup, h] using ih

theorem dlookup_dadjust_ne {α : Type} (l : List (String × α)) (k k' : String) (f : α → α)
    (h : k' ≠ k) : dlookup (dadjust l k f) k' = dlookup l k' := by
  induction l with
  | nil => rfl
  | cons p rest ih =>
    by_cases hp : p.1 = k
    · have hq : p.1 ≠ k' := by rw [hp]; exact Ne.symm h
      simp only [dadjust, List.map, if_pos hp, dlookup]
      rw [if_neg (Ne.symm h), if_neg hq]
      simpa [dadjust] using ih
    · simp only [dadjust, List.map, if_neg hp, dlookup]
      by_cases hq : p.1 = k'
      · simp [hq]
      · rw [if_neg hq, if_neg hq]
        simpa [dadjust] using ih

/-! ## Lemmas about the production agent -/

namespace AgentProduction

theorem pp_notFound (db : DB) (c : String) (now : Nat) (pm t : String)
    (h : dlookup db.carts c = none) :
    process_payment db c now pm t = (.error ⟨404, "Cart not found or expired"⟩, db) := by
  simp [process_payment, h]

theorem pp_alreadyUsed (db : DB) (c : String) (now : Nat) (pm t : String)
    (cart : CartRec) (h : dlookup db.carts c = some cart) (hu : cart.is_used = true) :
    process_payment db c now pm t = (.error ⟨400, "Cart already used"⟩, db) := by
  simp [process_payment, h, hu]

theorem pp_expired (db : DB) (c : String) (now : Nat) (pm t : String)
    (cart : CartRec) (h : dlookup db.carts c = some cart) (hu : cart.is_used = false)
    (he : cart.expires_at < now) :
    process_payment db c now pm t = (.error ⟨400, "Cart expired"⟩, db) := by
  simp [process_payment, h, hu, he]

theorem pp_success (db : DB) (c : String) (now : Nat) (pm t : String)
    (cart : CartRec) (h : dlookup db.carts c = some cart) (hu : cart.is_used = false)
    (he : ¬ cart.expires_at < now) (hpm : dlookup db.payments pm = none)
    (ht : dlookup db.tasks t = none) :
    process_payment db c now pm t =
      (.ok ⟨true, t, pm, "payment_authorized"⟩,
       ⟨(t, mkPaidTask cart c pm) :: db.tasks,
        aset db.carts c { cart with is_used := true },
        (pm, mkPaymentRec c cart) :: db.payments⟩) := by
  simp [process_payment, mark_used, h, hu, he, hpm, ht]

/-- Every run of `process_payment` either leaves the store unchanged (and
fails), or finds an unused cart and appends one PaymentMandate bound to it
while marking it used. -/
theorem pp_split (db : DB) (c : String) (now : Nat) (pm t : String) :
    (exceptOk (process_payment db c now pm t).1 = false ∧
      (process_payment db c now pm t).2 = db) ∨
    (∃ cart, dlookup db.carts c = some cart ∧ cart.is_used = false ∧
      (process_payment db c now pm t).2.payments = (pm, mkPaymentRec c cart) :: db.payments ∧
      (process_payment db c now pm t).2.carts = aset db.carts c { cart with is_used := true }) := by
  cases hcart : dlookup db.carts c with
  | none => exact Or.inl (by simp [pp_notFound db c now pm t hcart, exceptOk])
  | some cart =>
    by_cases hu : cart.is_used
    · exact Or.inl (by simp [pp_alreadyUsed db c now pm t cart hcart hu, exceptOk])
    · have hu' : cart.is_used = false := by simpa using hu
      by_cases he : cart.expires_at < now
      · exact Or.inl (by simp [pp_expired db c now pm t cart hcart hu' he, exceptOk])
      · cases hpm : dlookup db.payments pm with
        | some p => exact Or.inl (by simp [process_payment, hcart, hu', he, hpm, exceptOk])
        | none =>
          cases ht : dlookup db.tasks t with
          | some q =>
            refine Or.inr ⟨cart, rfl, hu', ?_, ?_⟩ <;>
              simp [process_payment, mark_used, hcart, hu', he, hpm, ht]
          | none =>
            refine Or.inr ⟨cart, rfl, hu', ?_, ?_⟩ <;>
              simp [pp_success db c now pm t cart hcart hu' he hpm ht]

theorem pp_usedCart_fails (db : DB) (c : String) (now : Nat) (pm t : String)
    (h : cartUsed db c = true) :
    process_payment db c now pm t = (.error ⟨400, "Cart already used"⟩, db) := by
  unfold cartUsed at h
  cases hcart : dlookup db.carts c with
  | none => rw [hcart] at h; exact absurd h (by simp)
  | some cart => rw [hcart] at h; exact pp_alreadyUsed db c now pm t cart hcart h

/-- A successful `process_payment` leaves the cart marked used. -/
theorem pp_ok_used (db : DB) (c : String) (now : Nat) (pm t : String)
    (h : exceptOk (process_payment db c now pm t).1 = true) :
    cartUsed (process_payment db c now pm t).2 c = true := by
  rcases pp_split db c now pm t with ⟨hfail, _⟩ | ⟨cart, hcart, _, _, hcarts⟩
  · rw [hfail] at h; cases h
  · unfold cartUsed
    rw [hcarts, dlookup_aset_self, hcart]
    rfl

/-- `process_payment` never un-marks any used cart. -/
theorem pp_mono_used (db : DB) (c : String) (now : Nat) (pm t : String) (x : String)
    (h : cartUsed db x = true) :
    cartUsed (process_payment db c now pm t).2 x = true := by
  rcases pp_split db c now pm t with ⟨_, hdb⟩ | ⟨cart, hcart, hu, _, hcarts⟩
  · rw [hdb]; exact h
  · by_cases hx : x = c
    · subst hx
      unfold cartUsed at h
      rw [hcart] at h
      simp [hu] at h
    · unfold cartUsed at h ⊢
      rw [hcarts, dlookup_aset_ne _ _ _ _ hx]
      exact h

/-- `process_payment` never modifies an existing task row: it only ever
appends a fresh one (the duplicate-key guard fails the call otherwise). -/
theorem pp_preserves_tasks (db : DB) (c : String) (now : Nat) (pm t : String)
    (x : String) (task : TaskRec) (hx : dlookup db.tasks x = some task) :
    dlookup (process_payment db c now pm t).2.tasks x = some task := by
  cases hcart : dlookup db.carts c with
  | none => rw [pp_notFound db c now pm t hcart]; exact hx
  | some cart =>
    by_cases hu : cart.is_used
    · rw [pp_alreadyUsed db c now pm t cart hcart hu]; exact hx
    · have hu' : cart.is_used = false := by simpa using hu
      by_cases he : cart.expires_at < now
      · rw [pp_expired db c now pm t cart hcart hu' he]; exact hx
      · cases hpm : dlookup db.payments pm with
        | some p =>
          have hdb : process_payment db c now pm t =
              (.error ⟨500, "Payment processing failed"⟩, db) := by
            simp [process_payment, hcart, hu', he, hpm]
          rw [hdb]; exact hx
        | none =>
          cases ht : dlookup db.tasks t with
          | some q =>
            have hts : (process_payment db c now pm t).2.tasks = db.tasks := by
              simp [process_payment, mark_used, hcart, hu', he, hpm, ht]
            rw [hts]; exact hx
          | none =>
            have hne : t ≠ x := by
              intro hee
              rw [hee, hx] at ht
              cases ht
            rw [pp_success db c now pm t cart hcart hu' he hpm ht]
            exact (dlookup_cons_ne (t, mkPaidTask cart c pm) db.tasks x hne).trans hx

theorem task_update_carts (db : DB) (t : String) (f : TaskRec → TaskRec) :
    (task_update db t f).carts = db.carts := by
  unfold task_update; split <;> rfl

theorem task_update_payments (db : DB) (t : String) (f : TaskRec → TaskRec) :
    (task_update db t f).payments = db.payments := by
  unfold task_update; split <;> rfl

theorem process_task_carts (p : List (String × Price)) (db : DB) (t s m : String)
    (g : Except String String) : (process_task p db t s m g).2.carts = db.carts := by
  unfold process_task
  cases g <;> simp [task_update_carts]

theorem process_task_payments (p : List (String × Price)) (db : DB) (t s m : String)
    (g : Except String String) : (process_task p db t s m g).2.payments = db.payments := by
  unfold process_task
  cases g <;> simp [task_update_payments]

theorem submit_task_carts (p : List (String × Price)) (db : DB) (tid : Option String)
    (fresh s m : String) (pm : Option String) (g : Except String String) :
    (submit_task p db tid fresh s m pm g).2.carts = db.carts := by
  unfold submit_task
  cases dlookup p s with
  | none => rfl
  | some price =>
    cases ha : paymentAuthorized db pm with
    | true => simp [ha, process_task_carts]
    | false =>
      simp only [ha, Bool.false_eq_true, if_false]
      split <;> rfl

theorem submit_task_payments (p : List (String × Price)) (db : DB) (tid : Option String)
    (fresh s m : String) (pm : Option String) (g : Except String String) :
    (submit_task p db tid fresh s m pm g).2.payments = db.payments := by
  unfold submit_task
  cases dlookup p s with
  | none => rfl
  | some price =>
    cases ha : paymentAuthorized db pm with
    | true => simp [ha, process_task_payments]
    | false =>
      simp only [ha, Bool.false_eq_true, if_false]
      split <;> rfl

theorem cc_split (p : List (String × Price)) (db : DB) (s d c : String) (now : Nat) :
    (create_cart_mandate p db s d c now).2 = db ∨
    (dlookup db.carts c = none ∧ ∃ cart : CartRec, cart.is_used = false ∧
      (create_cart_mandate p db s d c now).2 = { db with carts := (c, cart) :: db.carts }) := by
  unfold create_cart_mandate
  cases dlookup p s with
  | none => exact Or.inl rfl
  | some price =>
    cases hc : dlookup db.carts c with
    | some _ => exact Or.inl rfl
    | none => exact Or.inr ⟨rfl, _, rfl, rfl⟩

/-- No handled request ever resets a used cart to unused. -/
theorem stepOp_mono_used (db : DB) (op : Op) (x : String) (h : cartUsed db x = true) :
    cartUsed (stepOp db op) x = true := by
  cases op with
  | createCart p s d c now =>
    rcases cc_split p db s d c now with hdb | ⟨hc, cart, _, hdb⟩
    · simp only [stepOp]; rw [hdb]; exact h
    · simp only [stepOp]
      rw [hdb]
      unfold cartUsed at h ⊢
      have hx : c ≠ x := by
        intro hcx
        rw [hcx] at hc
        simp [hc] at h
      rw [dlookup_cons_ne _ _ _ hx]
      exact h
  | processPayment c now pm t => exact pp_mono_used db c now pm t x h
  | submitTask p tid fresh s m pm g =>
    simp only [stepOp]
    unfold cartUsed at h ⊢
    rw [submit_task_carts]
    exact h
  | readOnly => exact h

/-- From a store whose cart is already used, no later `processPayment` on that
cart ever succeeds. -/
theorem countPaySuccess_zero (ops : List Op) (db : DB) (c : String)
    (h : cartUsed db c = true) : countPaySuccess db ops c = 0 := by
  induction ops generalizing db with
  | nil => rfl
  | cons op rest ih =>
    have hrest : countPaySuccess (stepOp db op) rest c = 0 :=
      ih (stepOp db op) (stepOp_mono_used db op c h)
    cases op with
    | createCart p s d c' now => simpa [countPaySuccess] using hrest
    | processPayment c' now pm t =>
      by_cases hc : c' = c
      · subst hc
        have := pp_usedCart_fails db c' now pm t h
        simp [countPaySuccess, this, exceptOk, hrest]
      · simp [countPaySuccess, hc, hrest]
    | submitTask p tid fresh s m pm g => simpa [countPaySuccess] using hrest
    | readOnly => simpa [countPaySuccess] using hrest

/-- In any sequential trace, at most one `processPayment` call per cart id
returns success. -/
theorem countPaySuccess_le_one (ops : List Op) (db : DB) (c : String) :
    countPaySuccess db ops c ≤ 1 := by
  induction ops generalizing db with
  | nil => exact Nat.zero_le 1
  | cons op rest ih =>
    cases op with
    | createCart p s d c' now =>
      simpa [countPaySuccess] using ih (stepOp db (Op.createCart p s d c' now))
    | processPayment c' now pm t =>
      by_cases hok : c' = c ∧ exceptOk (process_payment db c' now pm t).1 = true
      · obtain ⟨hc, hsucc⟩ := hok
        subst hc
        have hused : cartUsed (stepOp db (Op.processPayment c' now pm t)) c' = true := by
          unfold stepOp
          exact pp_ok_used db c' now pm t hsucc
        have h0 := countPaySuccess_zero rest _ c' hused
        simp [countPaySuccess, hsucc, h0]
      · have : countPaySuccess db (Op.processPayment c' now pm t :: rest) c =
            countPaySuccess (stepOp db (Op.processPayment c' now pm t)) rest c := by
          simp [countPaySuccess, hok]
        rw [this]
        exact ih _
    | submitTask p tid fresh s m pm g =>
      simpa [countPaySuccess] using ih (stepOp db (Op.submitTask p tid fresh s m pm g))
    | readOnly => simpa [countPaySuccess] using ih (stepOp db Op.readOnly)

theorem countFor_cons (p : String × PaymentRec) (P : List (String × PaymentRec)) (c : String) :
    countFor (p :: P) c = (if p.2.cart_id = c then 1 else 0) + countFor P c := rfl

theorem payInv_empty : PayInv DB.empty := by
  intro c
  exact ⟨by simp [countFor, DB.empty], by simp [countFor, DB.empty]⟩

/-- The store invariant is preserved by every handled request. -/
theorem payInv_step (db : DB) (op : Op) (h : PayInv db) : PayInv (stepOp db op) := by
  cases op with
  | createCart p s d c now =>
    rcases cc_split p db s d c now with hdb | ⟨hc, cart, hcu, hdb⟩
    · simp only [stepOp]; rw [hdb]; exact h
    · simp only [stepOp]
      rw [hdb]
      intro x
      obtain ⟨h1, h2⟩ := h x
      refine ⟨h1, fun hge => ?_⟩
      have hu := h2 hge
      unfold cartUsed at hu ⊢
      have hx : c ≠ x := by
        intro hcx
        rw [hcx] at hc
        simp [hc] at hu
      rw [dlookup_cons_ne _ _ _ hx]
      exact hu
  | processPayment c now pm t =>
    rcases pp_split db c now pm t with ⟨_, hdb⟩ | ⟨cart, hcart, hcu, hpay, hcarts⟩
    · simp only [stepOp]; rw [hdb]; exact h
    · simp only [stepOp]
      intro x
      obtain ⟨h1, h2⟩ := h x
      by_cases hx : x = c
      · subst hx
        have hcount0 : countFor db.payments x = 0 := by
          by_contra hne
          have hge : 1 ≤ countFor db.payments x := Nat.one_le_iff_ne_zero.mpr hne
          have hu := h2 hge
          unfold cartUsed at hu
          rw [hcart] at hu
          simp [hcu] at hu
        constructor
        · rw [hpay, countFor_cons, hcount0]
          simp [mkPaymentRec]
        · intro _
          unfold cartUsed
          rw [hcarts, dlookup_aset_self, hcart]
          rfl
      · have hcx : (mkPaymentRec c cart).cart_id ≠ x := fun hcc => hx (by simpa [mkPaymentRec] using hcc.symm)
        constructor
        · rw [hpay, countFor_cons, if_neg hcx]
          simpa using h1
        · intro hge
          rw [hpay, countFor_cons, if_neg hcx] at hge
          simp only [Nat.zero_add] at hge
          have hu := h2 hge
          unfold cartUsed at hu ⊢
          rw [hcarts, dlookup_aset_ne _ _ _ _ hx]
          exact hu
  | submitTask p tid fresh s m pm g =>
    simp only [stepOp]
    intro x
    obtain ⟨h1, h2⟩ := h x
    constructor
    · rw [submit_task_payments]
      exact h1
    · intro hge
      rw [submit_task_payments] at hge
      have hu := h2 hge
      unfold cartUsed at hu ⊢
      rw [submit_task_carts]
      exact hu
  | readOnly => exact h

theorem payInv_run (db : DB) (ops : List Op) (h : PayInv db) : PayInv (runOps db ops) := by
  induction ops generalizing db with
  | nil => exact h
  | cons op rest ih => exact ih _ (payInv_step db op h)

end AgentProduction

theorem dlookup_cons_self {α : Type} (k : String) (v : α) (l : List (String × α)) :
    dlookup ((k, v) :: l) k = some v := by
  simp [dlookup]

theorem dlookup_dset_self {α : Type} (l : List (String × α)) (k : String) (v : α) :
    dlookup (dset l k v) k = some v := by
  unfold dset
  cases h : dlookup l k with
  | none => exact dlookup_cons_self k v l
  | some w => rw [dlookup_aset_self, h]; rfl

theorem dlookup_dset_ne {α : Type} (l : List (String × α)) (k : String) (v : α) (x : String)
    (h : k ≠ x) : dlookup (dset l k v) x = dlookup l x := by
  unfold dset
  cases hk : dlookup l k with
  | none => exact dlookup_cons_ne _ _ _ h
  | some w => exact dlookup_aset_ne _ _ _ _ (Ne.symm h)

namespace AgentProduction

theorem task_update_lookup_self (db : DB) (t : String) (f : TaskRec → TaskRec) :
    dlookup (task_update db t f).tasks t = (dlookup db.tasks t).map f := by
  unfold task_update
  cases h : dlookup db.tasks t with
  | none => simp [h]
  | some v => simp [h, dlookup_dadjust_self]

theorem task_update_lookup_ne (db : DB) (t x : String) (f : TaskRec → TaskRec)
    (hx : x ≠ t) : dlookup (task_update db t f).tasks x = dlookup db.tasks x := by
  unfold task_update
  cases h : dlookup db.tasks t with
  | none => rfl
  | some v => simp [dlookup_dadjust_ne _ _ _ _ hx]

/-- After a `process_task` whose generation succeeds, the stored task is the
old record with status `completed` and the result text — all other columns
(price and currency included) are untouched. -/
theorem process_task_ok_lookup (p : List (String × Price)) (db : DB) (t s m txt : String)
    (task : TaskRec) (h : dlookup db.tasks t = some task) :
    dlookup (process_task p db t s m (.ok txt)).2.tasks t =
      some { task with status := "completed", result := some txt } := by
  unfold process_task
  rw [task_update_lookup_self, task_update_lookup_self, h]
  rfl

end AgentProduction

/-! ## The claims -/

/-- Claim C1: for every cart id, at most one `processPayment` call succeeds
and at most one PaymentMandate is ever created for that cart (first conjunct:
over every sequential request trace from the empty store, the
`payment_mandates` table never holds two rows for one cart; second conjunct:
in every trace at most one `processPayment` on a given cart id returns
success); in particular (third conjunct) calling `processPayment` twice in
sequence on the same cart makes the first call succeed and the second fail
with the "Cart already used" (`CartAlreadyUsed`) error. -/
theorem claim_C1_cart_single_use :
    (∀ (ops : List AgentProduction.Op) (c : String),
      AgentProduction.countFor (AgentProduction.runOps AgentProduction.DB.empty ops).payments c ≤ 1) ∧
    (∀ (db : AgentProduction.DB) (ops : List AgentProduction.Op) (c : String),
      AgentProduction.countPaySuccess db ops c ≤ 1) ∧
    (∀ (db : AgentProduction.DB) (c : String) (now : Nat) (pm1 t1 pm2 t2 : String)
      (cart : AgentProduction.CartRec),
      dlookup db.carts c = some cart → cart.is_used = false → ¬ cart.expires_at < now →
      dlookup db.payments pm1 = none → dlookup db.tasks t1 = none →
      (AgentProduction.process_payment db c now pm1 t1).1 =
        .ok ⟨true, t1, pm1, "payment_authorized"⟩ ∧
      (AgentProduction.process_payment
          (AgentProduction.process_payment db c now pm1 t1).2 c now pm2 t2).1 =
        .error ⟨400, "Cart already used"⟩) := by
  refine ⟨?_, ?_, ?_⟩
  · intro ops c
    exact (AgentProduction.payInv_run AgentProduction.DB.empty ops AgentProduction.payInv_empty c).1
  · intro db ops c
    exact AgentProduction.countPaySuccess_le_one ops db c
  · intro db c now pm1 t1 pm2 t2 cart hcart hu he hpm ht
    have hfirst := AgentProduction.pp_success db c now pm1 t1 cart hcart hu he hpm ht
    have hok : AgentProduction.exceptOk (AgentProduction.process_payment db c now pm1 t1).1 = true := by
      rw [hfirst]
      rfl
    have hused := AgentProduction.pp_ok_used db c now pm1 t1 hok
    have hsecond := AgentProduction.pp_usedCart_fails
      (AgentProduction.process_payment db c now pm1 t1).2 c now pm2 t2 hused
    constructor
    · rw [hfirst]
    · rw [hsecond]

/-- Witness for claim C1 at concrete inputs: the empty trace, and two
sequential `processPayment` calls on an unused, unexpired cart. -/
theorem claim_C1_witness :
    AgentProduction.countFor (AgentProduction.runOps AgentProduction.DB.empty []).payments "c1" ≤ 1 ∧
    AgentProduction.countPaySuccess AgentProduction.DB.empty [] "c1" ≤ 1 ∧
    ((AgentProduction.process_payment
        ⟨[], [("c1", ⟨"quick-consult", "d", 25, "USD", 100, false⟩)], []⟩
        "c1" 50 "pm1" "t1").1 = .ok ⟨true, "t1", "pm1", "payment_authorized"⟩ ∧
      (AgentProduction.process_payment
        (AgentProduction.process_payment
          ⟨[], [("c1", ⟨"quick-consult", "d", 25, "USD", 100, false⟩)], []⟩
          "c1" 50 "pm1" "t1").2 "c1" 50 "pm2" "t2").1 =
        .error ⟨400, "Cart already used"⟩) := by
  refine ⟨claim_C1_cart_single_use.1 [] "c1",
    claim_C1_cart_single_use.2.1 AgentProduction.DB.empty [] "c1",
    claim_C1_cart_single_use.2.2
      ⟨[], [("c1", ⟨"quick-consult", "d", 25, "USD", 100, false⟩)], []⟩
      "c1" 50 "pm1" "t1" "pm2" "t2" ⟨"quick-consult", "d", 25, "USD", 100, false⟩
      (by decide) (by decide) (by decide) (by decide) (by decide)⟩

/-- Claim C2 counterexample: in `agent_ap2.py`, `process_payment` on a cart
whose recorded expiry (10) is long past succeeds instead of failing with
`CartExpired` — indeed the response is identical to the one for the same cart
with a far-future expiry (999999999), because this variant never reads the
expiry (nor any used flag).  So "for every call to processPayment … if the
cart's expires_at is in the past it fails with CartExpired" is false of the
code. -/
theorem claim_C2_counterexample :
    (AgentAp2.process_payment
        ⟨[], [("c1", ⟨25, "USD", ["quick-consult - help"], 10⟩)], []⟩
        "c1" "pm1" "t1").1 =
      ⟨true, none, some "t1", some "pm1", some "payment_authorized"⟩ ∧
    (AgentAp2.process_payment
        ⟨[], [("c1", ⟨25, "USD", ["quick-consult - help"], 10⟩)], []⟩
        "c1" "pm1" "t1").1 =
      (AgentAp2.process_payment
        ⟨[], [("c1", ⟨25, "USD", ["quick-consult - help"], 999999999⟩)], []⟩
        "c1" "pm1" "t1").1 := by
  constructor <;> rfl

/-- Claim C2, amended: in `agent_production.py`, `process_payment` fails 404
("Cart not found") when the cart is absent, 400 "Cart already used" when
`is_used`, 400 "Cart expired" when `expires_at < now` even though unused, and
only otherwise succeeds; but in `agent_ap2.py` the only check is that the cart
id exists — a cart found in `cart_mandates` whose labels identify a skill is
paid successfully regardless of expiry or earlier payments. -/
theorem claim_C2_amended_payment_checks :
    (∀ (db : AgentProduction.DB) (c : String) (now : Nat) (pm t : String),
      dlookup db.carts c = none →
      (AgentProduction.process_payment db c now pm t).1 =
        .error ⟨404, "Cart not found or expired"⟩) ∧
    (∀ (db : AgentProduction.DB) (c : String) (now : Nat) (pm t : String)
      (cart : AgentProduction.CartRec),
      dlookup db.carts c = some cart → cart.is_used = true →
      (AgentProduction.process_payment db c now pm t).1 =
        .error ⟨400, "Cart already used"⟩) ∧
    (∀ (db : AgentProduction.DB) (c : String) (now : Nat) (pm t : String)
      (cart : AgentProduction.CartRec),
      dlookup db.carts c = some cart → cart.is_used = false → cart.expires_at < now →
      (AgentProduction.process_payment db c now pm t).1 =
        .error ⟨400, "Cart expired"⟩) ∧
    (∀ (db : AgentProduction.DB) (c : String) (now : Nat) (pm t : String)
      (cart : AgentProduction.CartRec),
      dlookup db.carts c = some cart → cart.is_used = false → ¬ cart.expires_at < now →
      dlookup db.payments pm = none → dlookup db.tasks t = none →
      (AgentProduction.process_payment db c now pm t).1 =
        .ok ⟨true, t, pm, "payment_authorized"⟩) ∧
    (∀ (st : AgentAp2.St) (c pm t : String) (cart : AgentAp2.Ap2Cart) (s : String),
      dlookup st.cart_mandates c = some cart →
      AgentAp2.extract_skill cart.display_labels = some s →
      (AgentAp2.process_payment st c pm t).1.success = true) := by
  refine ⟨?_, ?_, ?_, ?_, ?_⟩
  · intro db c now pm t h
    rw [AgentProduction.pp_notFound db c now pm t h]
  · intro db c now pm t cart h hu
    rw [AgentProduction.pp_alreadyUsed db c now pm t cart h hu]
  · intro db c now pm t cart h hu he
    rw [AgentProduction.pp_expired db c now pm t cart h hu he]
  · intro db c now pm t cart h hu he hpm ht
    rw [AgentProduction.pp_success db c now pm t cart h hu he hpm ht]
  · intro st c pm t cart s hcart hs
    unfold AgentAp2.process_payment
    rw [hcart]
    simp only [hs]

/-- Witness for the amended claim C2: one concrete store per production case,
plus the ap2 success case. -/
theorem claim_C2_witness :
    (AgentProduction.process_payment AgentProduction.DB.empty "c0" 0 "pm" "t").1 =
      .error ⟨404, "Cart not found or expired"⟩ ∧
    (AgentProduction.process_payment
        ⟨[], [("c1", ⟨"quick-consult", "d", 25, "USD", 100, true⟩)], []⟩
        "c1" 0 "pm" "t").1 = .error ⟨400, "Cart already used"⟩ ∧
    (AgentProduction.process_payment
        ⟨[], [("c1", ⟨"quick-consult", "d", 25, "USD", 100, false⟩)], []⟩
        "c1" 500 "pm" "t").1 = .error ⟨400, "Cart expired"⟩ ∧
    (AgentProduction.process_payment
        ⟨[], [("c1", ⟨"quick-consult", "d", 25, "USD", 100, false⟩)], []⟩
        "c1" 50 "pm" "t").1 = .ok ⟨true, "t", "pm", "payment_authorized"⟩ ∧
    (AgentAp2.process_payment
        ⟨[], [("c1", ⟨25, "USD", ["quick-consult - help"], 10⟩)], []⟩
        "c1" "pm1" "t1").1.success = true := by
  refine ⟨claim_C2_amended_payment_checks.1 AgentProduction.DB.empty "c0" 0 "pm" "t" (by decide),
    claim_C2_amended_payment_checks.2.1 _ "c1" 0 "pm" "t"
      ⟨"quick-consult", "d", 25, "USD", 100, true⟩ (by decide) (by decide),
    claim_C2_amended_payment_checks.2.2.1 _ "c1" 500 "pm" "t"
      ⟨"quick-consult", "d", 25, "USD", 100, false⟩ (by decide) (by decide) (by decide),
    claim_C2_amended_payment_checks.2.2.2.1 _ "c1" 50 "pm" "t"
      ⟨"quick-consult", "d", 25, "USD", 100, false⟩ (by decide) (by decide) (by decide)
      (by decide) (by decide),
    claim_C2_amended_payment_checks.2.2.2.2 _ "c1" "pm1" "t1"
      ⟨25, "USD", ["quick-consult - help"], 10⟩ "quick-consult" (by decide) (by rfl)⟩

/-- Claim C3 is false of the code: `CartMandateRepository.mark_used` is a
plain read-then-write (it returns `True` even for an already-used cart — last
conjunct), not a compare-and-set on `is_used`, and therefore two concurrent
`processPayment` calls on one cart whose validating reads both happen before
either write (schedule A-read, B-read, A finishes, B finishes) BOTH succeed
and leave two PaymentMandates bound to the cart — not "exactly one succeeds". -/
theorem claim_C3_race_two_payments :
    (AgentProduction.runTwo
        ⟨[], [("c1", ⟨"quick-consult", "d", 25, "USD", 100, false⟩)], []⟩
        ⟨"c1", 50, "pm1", "t1", .start⟩ ⟨"c1", 50, "pm2", "t2", .start⟩
        [true, false, true, true, true, false, false, false]).2.1.phase =
      AgentProduction.PPPhase.done ∧
    (AgentProduction.runTwo
        ⟨[], [("c1", ⟨"quick-consult", "d", 25, "USD", 100, false⟩)], []⟩
        ⟨"c1", 50, "pm1", "t1", .start⟩ ⟨"c1", 50, "pm2", "t2", .start⟩
        [true, false, true, true, true, false, false, false]).2.2.phase =
      AgentProduction.PPPhase.done ∧
    AgentProduction.countFor
      (AgentProduction.runTwo
        ⟨[], [("c1", ⟨"quick-consult", "d", 25, "USD", 100, false⟩)], []⟩
        ⟨"c1", 50, "pm1", "t1", .start⟩ ⟨"c1", 50, "pm2", "t2", .start⟩
        [true, false, true, true, true, false, false, false]).1.payments "c1" = 2 ∧
    (AgentProduction.mark_used
        ⟨[], [("c1", ⟨"quick-consult", "d", 25, "USD", 100, true⟩)], []⟩ "c1").1 = true := by
  refine ⟨by decide, by decide, by decide, by decide⟩

/-- Claim C4 is false of the code: the three writes of a successful
`process_payment` are three separately committed transactions, so a failure of
the third (here: the task insert's commit raising on a duplicate primary key
"t0") surfaces as a 500 error while the PaymentMandate row and the cart's used
flag remain durably persisted — a strict subset of the three writes persists,
not "all or none". -/
theorem claim_C4_partial_persistence :
    (AgentProduction.process_payment
        ⟨[("t0", ⟨"quick-consult", "completed", none, none, none, 25, "USD", none, none⟩)],
         [("c1", ⟨"quick-consult", "d", 25, "USD", 100, false⟩)], []⟩
        "c1" 50 "pm1" "t0").1 = .error ⟨500, "Payment processing failed"⟩ ∧
    dlookup (AgentProduction.process_payment
        ⟨[("t0", ⟨"quick-consult", "completed", none, none, none, 25, "USD", none, none⟩)],
         [("c1", ⟨"quick-consult", "d", 25, "USD", 100, false⟩)], []⟩
        "c1" 50 "pm1" "t0").2.payments "pm1" = some ⟨"c1", 25, "USD", "authorized"⟩ ∧
    AgentProduction.cartUsed (AgentProduction.process_payment
        ⟨[("t0", ⟨"quick-consult", "completed", none, none, none, 25, "USD", none, none⟩)],
         [("c1", ⟨"quick-consult", "d", 25, "USD", 100, false⟩)], []⟩
        "c1" 50 "pm1" "t0").2 "c1" = true ∧
    (AgentProduction.process_payment
        ⟨[("t0", ⟨"quick-consult", "completed", none, none, none, 25, "USD", none, none⟩)],
         [("c1", ⟨"quick-consult", "d", 25, "USD", 100, false⟩)], []⟩
        "c1" 50 "pm1" "t0").2.tasks =
      [("t0", ⟨"quick-consult", "completed", none, none, none, 25, "USD", none, none⟩)] := by
  refine ⟨by rfl, by decide, by decide, by decide⟩

/-- Claim C5: a `submitTask` whose `paymentMandateId` resolves to a stored
PaymentMandate with status `authorized` never returns a `payment_required`
task: in `agent_production.py` every non-error response has status `working`,
`completed` or `failed` (first conjunct), and on a successful generation the
call returns status `completed` carrying the generated text — execution ran
synchronously inside the call (second conjunct); in `agent_ap2.py` a
`paymentMandateId` stored in `payment_mandates` likewise yields status
`completed` or `failed`, never `payment_required` (third conjunct). -/
theorem claim_C5_authorized_skips_payment_required :
    (∀ (pricing : List (String × Price)) (db : AgentProduction.DB) (tid : Option String)
      (fresh s m : String) (pm : Option String) (gen : Except String String)
      (resp : AgentProduction.TaskResp),
      AgentProduction.paymentAuthorized db pm = true →
      (AgentProduction.submit_task pricing db tid fresh s m pm gen).1 = .ok resp →
      resp.status ≠ "payment_required" ∧
        (resp.status = "working" ∨ resp.status = "completed" ∨ resp.status = "failed")) ∧
    (∀ (pricing : List (String × Price)) (db : AgentProduction.DB) (tid : Option String)
      (fresh s m txt : String) (pm : Option String) (q : Price),
      dlookup pricing s = some q →
      AgentProduction.paymentAuthorized db pm = true →
      (AgentProduction.submit_task pricing db tid fresh s m pm (.ok txt)).1 =
        .ok ⟨tid.getD fresh, "completed", some txt, dlookup pricing s,
             some AgentProduction.default_currency, none⟩) ∧
    (∀ (st : AgentAp2.St) (tid : Option String) (fresh s m pid : String)
      (gen : Except String String) (q : Price),
      dlookup AgentAp2.PRICING s = some q →
      (dlookup st.payment_mandates pid).isSome = true →
      ((AgentAp2.submit_task st tid fresh s m (some pid) gen).1.status = "completed" ∨
        (AgentAp2.submit_task st tid fresh s m (some pid) gen).1.status = "failed") ∧
      (AgentAp2.submit_task st tid fresh s m (some pid) gen).1.status ≠ "payment_required") := by
  refine ⟨?_, ?_, ?_⟩
  · intro pricing db tid fresh s m pm gen resp ha h
    unfold AgentProduction.submit_task at h
    cases hq : dlookup pricing s with
    | none => rw [hq] at h; simp at h
    | some q =>
      rw [hq] at h
      simp only [ha, if_true] at h
      unfold AgentProduction.process_task at h
      cases gen with
      | ok txt =>
        simp only [Except.ok.injEq] at h
        have hs : resp.status = "completed" := by rw [← h]
        exact ⟨by rw [hs]; decide, Or.inr (Or.inl hs)⟩
      | error e => simp at h
  · intro pricing db tid fresh s m txt pm q hq ha
    unfold AgentProduction.submit_task
    rw [hq]
    simp only [ha, if_true]
    unfold AgentProduction.process_task
    rw [hq]
  · intro st tid fresh s m pid gen q hq hpm
    unfold AgentAp2.submit_task
    rw [hq]
    simp only [hpm, if_true]
    unfold AgentAp2.process_task
    cases gen with
    | ok txt =>
      refine ⟨Or.inl rfl, ?_⟩
      show ("completed" : String) ≠ "payment_required"
      decide
    | error e =>
      refine ⟨Or.inr rfl, ?_⟩
      show ("failed" : String) ≠ "payment_required"
      decide

/-- Witness for claim C5: a store holding one authorized PaymentMandate. -/
theorem claim_C5_witness :
    ((AgentProduction.submit_task AgentProduction.PRICING
        ⟨[], [], [("pm1", ⟨"c1", 25, "USD", "authorized"⟩)]⟩
        none "t1" "quick-consult" "hi" (some "pm1") (.ok "done")).1 =
      .ok ⟨"t1", "completed", some "done",
           dlookup AgentProduction.PRICING "quick-consult",
           some AgentProduction.default_currency, none⟩) ∧
    ((AgentAp2.submit_task
        ⟨[], [], [("pm1", ⟨"c1", 25⟩)]⟩
        none "t1" "quick-consult" "hi" (some "pm1") (.ok "done")).1.status = "completed" ∨
      (AgentAp2.submit_task
        ⟨[], [], [("pm1", ⟨"c1", 25⟩)]⟩
        none "t1" "quick-consult" "hi" (some "pm1") (.ok "done")).1.status = "failed") := by
  exact ⟨claim_C5_authorized_skips_payment_required.2.1 AgentProduction.PRICING
      ⟨[], [], [("pm1", ⟨"c1", 25, "USD", "authorized"⟩)]⟩
      none "t1" "quick-consult" "hi" "done" (some "pm1") 25 (by decide) (by decide),
    (claim_C5_authorized_skips_payment_required.2.2
      ⟨[], [], [("pm1", ⟨"c1", 25⟩)]⟩
      none "t1" "quick-consult" "hi" "pm1" (.ok "done") 25 (by decide) (by decide)).1⟩

/-- Claim C6: a `submitTask` with a valid skill and no resolvable authorized
payment mandate creates the task in `payment_required` priced from the
catalog, and the response's `next_steps` lists exactly
`createIntentMandate`, `createCartMandate`, `processPayment` in that order —
in both `agent_production.py` (first conjunct) and `agent_ap2.py` (second
conjunct; there "no resolvable mandate" means the id is not a key of
`payment_mandates`). -/
theorem claim_C6_payment_required_next_steps :
    (∀ (pricing : List (String × Price)) (db : AgentProduction.DB) (tid : Option String)
      (fresh s m : String) (pm : Option String) (gen : Except String String) (q : Price),
      dlookup pricing s = some q →
      AgentProduction.paymentAuthorized db pm = false →
      dlookup db.tasks (tid.getD fresh) = none →
      (AgentProduction.submit_task pricing db tid fresh s m pm gen).1 =
        .ok ⟨tid.getD fresh, "payment_required", some "Payment required", none, none,
             some ["createIntentMandate", "createCartMandate", "processPayment"]⟩ ∧
      dlookup (AgentProduction.submit_task pricing db tid fresh s m pm gen).2.tasks
          (tid.getD fresh) =
        some ⟨s, "payment_required", some m, none, none, q,
              AgentProduction.default_currency, none, none⟩) ∧
    (∀ (st : AgentAp2.St) (tid : Option String) (fresh s m : String)
      (pm : Option String) (gen : Except String String) (q : Price),
      dlookup AgentAp2.PRICING s = some q →
      (∀ pid, pm = some pid → dlookup st.payment_mandates pid = none) →
      dlookup st.tasks (tid.getD fresh) = none →
      (AgentAp2.submit_task st tid fresh s m pm gen).1 =
        ⟨tid.getD fresh, "payment_required", some "Payment required", none, none,
         some ["createIntentMandate", "createCartMandate", "processPayment"]⟩ ∧
      dlookup (AgentAp2.submit_task st tid fresh s m pm gen).2.tasks (tid.getD fresh) =
        some ⟨s, "payment_required", some m, none, none, q, "USD", none, none⟩) := by
  constructor
  · intro pricing db tid fresh s m pm gen q hq ha ht
    unfold AgentProduction.submit_task
    rw [hq]
    simp only [ha, Bool.false_eq_true, if_false]
    rw [ht]
    exact ⟨rfl, by rw [dlookup_cons_self]⟩
  · intro st tid fresh s m pm gen q hq hpm ht
    cases pm with
    | none =>
      unfold AgentAp2.submit_task
      rw [hq]
      simp only [Bool.false_eq_true, if_false, ht, dlookup_dset_self]
      exact ⟨trivial, trivial⟩
    | some pid =>
      have hnone := hpm pid rfl
      unfold AgentAp2.submit_task
      rw [hq]
      simp only [hnone, Option.isSome_none, Bool.false_eq_true, if_false, ht, dlookup_dset_self]
      exact ⟨trivial, trivial⟩

/-- Witness for claim C6: a fresh submission with no payment reference, in
both variants. -/
theorem claim_C6_witness :
    (AgentProduction.submit_task AgentProduction.PRICING AgentProduction.DB.empty
        none "t1" "quick-consult" "hi" none (.ok "x")).1 =
      .ok ⟨"t1", "payment_required", some "Payment required", none, none,
           some ["createIntentMandate", "createCartMandate", "processPayment"]⟩ ∧
    (AgentAp2.submit_task AgentAp2.St.empty
        none "t1" "quick-consult" "hi" none (.ok "x")).1 =
      ⟨"t1", "payment_required", some "Payment required", none, none,
       some ["createIntentMandate", "createCartMandate", "processPayment"]⟩ := by
  exact ⟨(claim_C6_payment_required_next_steps.1 AgentProduction.PRICING
      AgentProduction.DB.empty none "t1" "quick-consult" "hi" none (.ok "x") 25
      (by decide) (by decide) (by decide)).1,
    (claim_C6_payment_required_next_steps.2 AgentAp2.St.empty
      none "t1" "quick-consult" "hi" none (.ok "x") 25
      (by decide) (by intro pid h; cases h) (by decide)).1⟩

/-- Claim C7: a task's stored price and currency are fixed at creation.  A
task created by `submit_task` under catalog `p` (price `q`), later executed
under an arbitrarily changed catalog `p'`, still answers `getTaskStatus` with
the creation-time price `q` and currency — and (second conjunct) never with a
changed catalog price `q' ≠ q`. -/
theorem claim_C7_price_fixed_at_creation :
    ∀ (p p' : List (String × Price)) (db : AgentProduction.DB) (tid fresh s m txt : String)
      (pm : Option String) (gen : Except String String) (q : Price),
      dlookup p s = some q →
      AgentProduction.paymentAuthorized db pm = false →
      dlookup db.tasks tid = none →
      AgentProduction.get_task_status
          (AgentProduction.process_task p'
            (AgentProduction.submit_task p db (some tid) fresh s m pm gen).2
            tid s m (.ok txt)).2 tid =
        .ok ⟨tid, "completed", some txt, some q, some AgentProduction.default_currency, none⟩ ∧
      (∀ q' : Price, q' ≠ q →
        AgentProduction.get_task_status
            (AgentProduction.process_task p'
              (AgentProduction.submit_task p db (some tid) fresh s m pm gen).2
              tid s m (.ok txt)).2 tid ≠
          .ok ⟨tid, "completed", some txt, some q', some AgentProduction.default_currency, none⟩) := by
  intro p p' db tid fresh s m txt pm gen q hq ha ht
  have hdb1 : (AgentProduction.submit_task p db (some tid) fresh s m pm gen).2 =
      { db with tasks := (tid,
        ⟨s, "payment_required", some m, none, none, q,
         AgentProduction.default_currency, none, none⟩) :: db.tasks } := by
    unfold AgentProduction.submit_task
    rw [hq]
    simp only [ha, Bool.false_eq_true, if_false, Option.getD_some]
    rw [ht]
  have ht0 : dlookup (AgentProduction.submit_task p db (some tid) fresh s m pm gen).2.tasks tid =
      some ⟨s, "payment_required", some m, none, none, q,
            AgentProduction.default_currency, none, none⟩ := by
    rw [hdb1]
    exact dlookup_cons_self _ _ _
  have h2 := AgentProduction.process_task_ok_lookup p'
    (AgentProduction.submit_task p db (some tid) fresh s m pm gen).2 tid s m txt _ ht0
  have hfirst : AgentProduction.get_task_status
      (AgentProduction.process_task p'
        (AgentProduction.submit_task p db (some tid) fresh s m pm gen).2
        tid s m (.ok txt)).2 tid =
      .ok ⟨tid, "completed", some txt, some q, some AgentProduction.default_currency, none⟩ := by
    unfold AgentProduction.get_task_status
    rw [h2]
    rfl
  refine ⟨hfirst, ?_⟩
  intro q' hne heq
  rw [hfirst] at heq
  simp only [Except.ok.injEq] at heq
  have hqq : some q = some q' := congrArg AgentProduction.TaskResp.metadata_price heq
  simp only [Option.some.injEq] at hqq
  exact hne hqq.symm

/-- Witness for claim C7: a task created at the catalog price 25 for
`quick-consult`, then executed under a catalog whose price was changed to 99;
`getTaskStatus` still reports 25, and cannot report 99. -/
theorem claim_C7_witness :
    AgentProduction.get_task_status
        (AgentProduction.process_task [("quick-consult", 99)]
          (AgentProduction.submit_task AgentProduction.PRICING AgentProduction.DB.empty
            (some "t1") "f" "quick-consult" "m" none (.ok "x")).2
          "t1" "quick-consult" "m" (.ok "done")).2 "t1" =
      .ok ⟨"t1", "completed", some "done", some 25,
           some AgentProduction.default_currency, none⟩ ∧
    AgentProduction.get_task_status
        (AgentProduction.process_task [("quick-consult", 99)]
          (AgentProduction.submit_task AgentProduction.PRICING AgentProduction.DB.empty
            (some "t1") "f" "quick-consult" "m" none (.ok "x")).2
          "t1" "quick-consult" "m" (.ok "done")).2 "t1" ≠
      .ok ⟨"t1", "completed", some "done", some 99,
           some AgentProduction.default_currency, none⟩ := by
  have h := claim_C7_price_fixed_at_creation AgentProduction.PRICING [("quick-consult", 99)]
    AgentProduction.DB.empty "t1" "f" "quick-consult" "m" "done" none (.ok "x") 25
    (by decide) (by decide) (by decide)
  exact ⟨h.1, h.2 99 (by decide)⟩

/-- Claim C8 counterexample: in `agent_production.py`, a generation failure
during `process_task` IS propagated as a transport-level error (an
`HTTPException` 500 re-raised after the task row is set `failed`) even though
the task id "t1" exists — the caller gets a failed RPC, not a task response. -/
theorem claim_C8_counterexample :
    dlookup ([("t1", (⟨"quick-consult", "working", some "m", none, none, 25, "USD", none,
        none⟩ : AgentProduction.TaskRec))] : List (String × AgentProduction.TaskRec)) "t1" =
      some ⟨"quick-consult", "working", some "m", none, none, 25, "USD", none, none⟩ ∧
    (AgentProduction.process_task AgentProduction.PRICING
        ⟨[("t1", ⟨"quick-consult", "working", some "m", none, none, 25, "USD", none, none⟩)],
         [], []⟩ "t1" "quick-consult" "m" (.error "boom")).1 =
      .error ⟨500, "Task processing failed: boom"⟩ := by
  exact ⟨by decide, by rfl⟩

/-- Claim C8, amended: on a generation failure the task transitions to
`failed` with the error stored on its row, and the already-consumed cart and
PaymentMandate are not rolled back (the cart and payment tables are untouched)
— in both variants; but only `agent_ap2.py` answers in-band with a
failed-task response: `agent_production.py`'s `process_task` re-raises the
failure as a transport-level 500 error after recording it. -/
theorem claim_C8_amended_generation_failure :
    (∀ (p : List (String × Price)) (db : AgentProduction.DB) (t s m e : String)
      (task : AgentProduction.TaskRec),
      dlookup db.tasks t = some task →
      (AgentProduction.process_task p db t s m (.error e)).1 =
        .error ⟨500, "Task processing failed: " ++ e⟩ ∧
      dlookup (AgentProduction.process_task p db t s m (.error e)).2.tasks t =
        some { task with status := "failed", error := some e } ∧
      (AgentProduction.process_task p db t s m (.error e)).2.carts = db.carts ∧
      (AgentProduction.process_task p db t s m (.error e)).2.payments = db.payments) ∧
    (∀ (st : AgentAp2.St) (t s e : String) (task : AgentAp2.Ap2Task),
      dlookup st.tasks t = some task →
      (AgentAp2.process_task st t s (.error e)).1 =
        ⟨t, "failed", some ("Error processing request: " ++ e), none, none, none⟩ ∧
      dlookup (AgentAp2.process_task st t s (.error e)).2.tasks t =
        some { task with status := "failed", error := some e } ∧
      (AgentAp2.process_task st t s (.error e)).2.cart_mandates = st.cart_mandates ∧
      (AgentAp2.process_task st t s (.error e)).2.payment_mandates = st.payment_mandates) := by
  constructor
  · intro p db t s m e task h
    refine ⟨rfl, ?_, AgentProduction.process_task_carts p db t s m (.error e),
      AgentProduction.process_task_payments p db t s m (.error e)⟩
    unfold AgentProduction.process_task
    rw [AgentProduction.task_update_lookup_self, AgentProduction.task_update_lookup_self, h]
    rfl
  · intro st t s e task h
    refine ⟨rfl, ?_, rfl, rfl⟩
    unfold AgentAp2.process_task
    rw [dlookup_dadjust_self, h]
    rfl

/-- Witness for the amended claim C8: a store with one working task, in both
variants. -/
theorem claim_C8_witness :
    (AgentProduction.process_task AgentProduction.PRICING
        ⟨[("t1", ⟨"quick-consult", "working", some "m", none, none, 25, "USD", none, none⟩)],
         [], []⟩ "t1" "quick-consult" "m" (.error "boom")).1 =
      .error ⟨500, "Task processing failed: boom"⟩ ∧
    dlookup (AgentProduction.process_task AgentProduction.PRICING
        ⟨[("t1", ⟨"quick-consult", "working", some "m", none, none, 25, "USD", none, none⟩)],
         [], []⟩ "t1" "quick-consult" "m" (.error "boom")).2.tasks "t1" =
      some ⟨"quick-consult", "failed", some "m", none, some "boom", 25, "USD", none, none⟩ ∧
    (AgentAp2.process_task ⟨[("t1", ⟨"quick-consult", "working", some "m", none, none, 25,
        "USD", none, none⟩)], [], []⟩ "t1" "quick-consult" (.error "boom")).1 =
      ⟨"t1", "failed", some "Error processing request: boom", none, none, none⟩ := by
  have h1 := (claim_C8_amended_generation_failure.1 AgentProduction.PRICING
    ⟨[("t1", ⟨"quick-consult", "working", some "m", none, none, 25, "USD", none, none⟩)],
     [], []⟩ "t1" "quick-consult" "m" "boom"
    ⟨"quick-consult", "working", some "m", none, none, 25, "USD", none, none⟩ (by decide))
  have h2 := (claim_C8_amended_generation_failure.2
    ⟨[("t1", ⟨"quick-consult", "working", some "m", none, none, 25, "USD", none, none⟩)],
     [], []⟩ "t1" "quick-consult" "boom"
    ⟨"quick-consult", "working", some "m", none, none, 25, "USD", none, none⟩ (by decide))
  exact ⟨h1.1, h1.2.1, h2.1⟩

/-- Claim C9 counterexample: terminal states can be left, in both variants.
In the concrete stores below, task "t1" is in the terminal status `failed`; a
later `submitTask` on the same task id carrying the authorized mandate "pm1"
re-executes it and overwrites its status to `completed` — the terminal task
was mutated instead of a new task being created (production first, ap2
second). -/
theorem claim_C9_counterexample :
    dlookup (⟨[("t1", ⟨"quick-consult", "failed", some "m", none, some "old", 25, "USD",
        none, none⟩)], [], [("pm1", ⟨"c1", 25, "USD", "authorized"⟩)]⟩ :
        AgentProduction.DB).tasks "t1" =
      some ⟨"quick-consult", "failed", some "m", none, some "old", 25, "USD", none, none⟩ ∧
    dlookup (AgentProduction.submit_task AgentProduction.PRICING
        ⟨[("t1", ⟨"quick-consult", "failed", some "m", none, some "old", 25, "USD",
          none, none⟩)], [], [("pm1", ⟨"c1", 25, "USD", "authorized"⟩)]⟩
        (some "t1") "f" "quick-consult" "m" (some "pm1") (.ok "done")).2.tasks "t1" =
      some ⟨"quick-consult", "completed", some "m", some "done", some "old", 25, "USD",
            none, none⟩ ∧
    dlookup (⟨[("t1", ⟨"quick-consult", "failed", some "m", none, some "old", 25, "USD",
        none, none⟩)], [], [("pm1", ⟨"c1", 25⟩)]⟩ : AgentAp2.St).tasks "t1" =
      some ⟨"quick-consult", "failed", some "m", none, some "old", 25, "USD", none, none⟩ ∧
    dlookup (AgentAp2.submit_task
        ⟨[("t1", ⟨"quick-consult", "failed", some "m", none, some "old", 25, "USD",
          none, none⟩)], [], [("pm1", ⟨"c1", 25⟩)]⟩
        (some "t1") "f" "quick-consult" "m" (some "pm1") (.ok "done")).2.tasks "t1" =
      some ⟨"quick-consult", "completed", some "m", some "done", some "old", 25, "USD",
            none, none⟩ := by
  exact ⟨by decide, by decide, by decide, by decide⟩

/-- Claim C9, amended: a stored task record — in particular a terminal
`completed`/`failed` status — is never changed by any handled operation except
a `submitTask` whose `paymentMandateId` resolves to an authorized
PaymentMandate, which re-executes the task and can overwrite even a terminal
status.  First conjunct: in the production variant, every handled request
(`createCartMandate`, `processPayment`, a `submitTask` without a resolvable
authorized mandate, and the read-only handlers) preserves every existing task
row.  Second conjunct: in `agent_ap2.py`, a `submitTask` whose
`paymentMandateId` is not a key of `payment_mandates` preserves every stored
task.  Third conjunct: the ap2 `process_payment` (with its freshly drawn task
uuid) also preserves every stored task. -/
theorem claim_C9_amended_terminal_preserved :
    (∀ (db : AgentProduction.DB) (op : AgentProduction.Op) (x : String)
      (task : AgentProduction.TaskRec),
      (match op with
       | .submitTask _ _ _ _ _ pm _ => AgentProduction.paymentAuthorized db pm = false
       | _ => True) →
      dlookup db.tasks x = some task →
      dlookup (AgentProduction.stepOp db op).tasks x = some task) ∧
    (∀ (st : AgentAp2.St) (tid : Option String) (fresh s m : String)
      (pm : Option String) (gen : Except String String) (x : String)
      (task : AgentAp2.Ap2Task),
      (∀ pid, pm = some pid → dlookup st.payment_mandates pid = none) →
      dlookup st.tasks x = some task →
      dlookup (AgentAp2.submit_task st tid fresh s m pm gen).2.tasks x = some task) ∧
    (∀ (st : AgentAp2.St) (c pm t : String) (x : String) (task : AgentAp2.Ap2Task),
      dlookup st.tasks t = none →
      dlookup st.tasks x = some task →
      dlookup (AgentAp2.process_payment st c pm t).2.tasks x = some task) := by
  refine ⟨?_, ?_, ?_⟩
  · intro db op x task hcond hx
    cases op with
    | createCart p s d c now =>
      rcases AgentProduction.cc_split p db s d c now with hdb | ⟨hc, cart, hcu, hdb⟩ <;>
        · simp only [AgentProduction.stepOp]
          rw [hdb]
          exact hx
    | processPayment c now pm t =>
      simp only [AgentProduction.stepOp]
      exact AgentProduction.pp_preserves_tasks db c now pm t x task hx
    | submitTask p tid fresh s m pm gen =>
      simp only [AgentProduction.stepOp]
      unfold AgentProduction.submit_task
      cases hq : dlookup p s with
      | none => exact hx
      | some price =>
        simp only [hcond, Bool.false_eq_true, if_false]
        cases hT : dlookup db.tasks (tid.getD fresh) with
        | some v => exact hx
        | none =>
          have hne : (tid.getD fresh) ≠ x := by
            intro he
            rw [he, hx] at hT
            cases hT
          rw [dlookup_cons_ne _ _ _ hne]
          exact hx
    | readOnly => exact hx
  · intro st tid fresh s m pm gen x task hpm hx
    cases pm with
    | none =>
      unfold AgentAp2.submit_task
      cases hq : dlookup AgentAp2.PRICING s with
      | none => exact hx
      | some price =>
        simp only [Bool.false_eq_true, if_false]
        cases hT : dlookup st.tasks (tid.getD fresh) with
        | some v => exact hx
        | none =>
          have hne : (tid.getD fresh) ≠ x := by
            intro he
            rw [he, hx] at hT
            cases hT
          exact (dlookup_dset_ne _ _ _ _ hne).trans hx
    | some pid =>
      have hnone := hpm pid rfl
      unfold AgentAp2.submit_task
      cases hq : dlookup AgentAp2.PRICING s with
      | none => exact hx
      | some price =>
        simp only [hnone, Option.isSome_none, Bool.false_eq_true, if_false]
        cases hT : dlookup st.tasks (tid.getD fresh) with
        | some v => exact hx
        | none =>
          have hne : (tid.getD fresh) ≠ x := by
            intro he
            rw [he, hx] at hT
            cases hT
          exact (dlookup_dset_ne _ _ _ _ hne).trans hx
  · intro st c pm t x task ht hx
    unfold AgentAp2.process_payment
    cases hcart : dlookup st.cart_mandates c with
    | none => exact hx
    | some cart =>
      cases hskill : AgentAp2.extract_skill cart.display_labels with
      | none => simp only [hskill]; exact hx
      | some skill =>
        have hne : t ≠ x := by
          intro he
          rw [he, hx] at ht
          cases ht
        simp only [hskill]
        exact (dlookup_dset_ne _ _ _ _ hne).trans hx

/-- Witness for the amended claim C9: a completed production task survives an
unauthorized re-submission on its own id and a `processPayment`; an ap2 task
likewise survives an unauthorized re-submission and an ap2 `processPayment`. -/
theorem claim_C9_witness :
    dlookup (AgentProduction.stepOp
        ⟨[("t1", ⟨"quick-consult", "completed", some "m", some "r", none, 25, "USD",
          none, none⟩)], [], []⟩
        (.submitTask AgentProduction.PRICING (some "t1") "f" "quick-consult" "m"
          (some "pmX") (.ok "done"))).tasks "t1" =
      some ⟨"quick-consult", "completed", some "m", some "r", none, 25, "USD", none, none⟩ ∧
    dlookup (AgentAp2.submit_task
        ⟨[("t1", ⟨"quick-consult", "completed", some "m", some "r", none, 25, "USD",
          none, none⟩)], [], []⟩
        (some "t1") "f" "quick-consult" "m" (some "pmX") (.ok "done")).2.tasks "t1" =
      some ⟨"quick-consult", "completed", some "m", some "r", none, 25, "USD", none, none⟩ ∧
    dlookup (AgentAp2.process_payment
        ⟨[("t1", ⟨"quick-consult", "completed", some "m", some "r", none, 25, "USD",
          none, none⟩)], [("c1", ⟨25, "USD", ["quick-consult - help"], 100⟩)], []⟩
        "c1" "pm1" "t9").2.tasks "t1" =
      some ⟨"quick-consult", "completed", some "m", some "r", none, 25, "USD", none, none⟩ := by
  exact ⟨claim_C9_amended_terminal_preserved.1
      ⟨[("t1", ⟨"quick-consult", "completed", some "m", some "r", none, 25, "USD",
        none, none⟩)], [], []⟩
      (.submitTask AgentProduction.PRICING (some "t1") "f" "quick-consult" "m"
        (some "pmX") (.ok "done")) "t1"
      ⟨"quick-consult", "completed", some "m", some "r", none, 25, "USD", none, none⟩
      (by decide) (by decide),
    claim_C9_amended_terminal_preserved.2.1
      ⟨[("t1", ⟨"quick-consult", "completed", some "m", some "r", none, 25, "USD",
        none, none⟩)], [], []⟩
      (some "t1") "f" "quick-consult" "m" (some "pmX") (.ok "done") "t1"
      ⟨"quick-consult", "completed", some "m", some "r", none, 25, "USD", none, none⟩
      (by intro pid h; cases h; decide) (by decide),
    claim_C9_amended_terminal_preserved.2.2
      ⟨[("t1", ⟨"quick-consult", "completed", some "m", some "r", none, 25, "USD",
        none, none⟩)], [("c1", ⟨25, "USD", ["quick-consult - help"], 100⟩)], []⟩
      "c1" "pm1" "t9" "t1"
      ⟨"quick-consult", "completed", some "m", some "r", none, 25, "USD", none, none⟩
      (by decide) (by decide)⟩

/-- Claim C10 counterexample: in `agent_ap2.py` the created task's `skillId`
is NOT copied from the cart.  The cart below was issued for `quick-consult`
(its display label starts with that skill and its total is quick-consult's
price 25), but because the task description mentions `business-analysis` —
an earlier key in `PRICING` iteration order — the substring extraction
stores `skillId = "business-analysis"` on the task, a different skill than
the cart's. -/
theorem claim_C10_counterexample :
    (AgentAp2.process_payment
        ⟨[], [("c1", ⟨25, "USD", ["quick-consult - help with business-analysis"], 100⟩)], []⟩
        "c1" "pm1" "t1").1 =
      ⟨true, none, some "t1", some "pm1", some "payment_authorized"⟩ ∧
    dlookup (AgentAp2.process_payment
        ⟨[], [("c1", ⟨25, "USD", ["quick-consult - help with business-analysis"], 100⟩)], []⟩
        "c1" "pm1" "t1").2.tasks "t1" =
      some ⟨"business-analysis", "payment_authorized", none, none, none, 25, "USD",
            some "c1", some "pm1"⟩ ∧
    ("business-analysis" : String) ≠ "quick-consult" := by
  exact ⟨by rfl, by decide, by decide⟩

/-- Claim C10, amended: every successful `process_payment` creates a task
whose status is the literal `payment_authorized` — outside the spec's
four-state machine — returns that task's id as `task_id`, copies `cart_id`,
`payment_mandate_id` and the price from the cart, and nothing promotes it:
`getTaskStatus` still reports `payment_authorized` afterwards.  `skill_id` is
copied from the cart row in `agent_production.py` (first conjunct); in
`agent_ap2.py` (second conjunct) the stored `skillId` is whatever
`extract_skill` recovers by substring-searching the cart's display-item
labels, which can differ from the cart's own skill. -/
theorem claim_C10_payment_authorized_task :
    (∀ (db : AgentProduction.DB) (c : String) (now : Nat) (pm t : String)
      (cart : AgentProduction.CartRec),
      dlookup db.carts c = some cart → cart.is_used = false → ¬ cart.expires_at < now →
      dlookup db.payments pm = none → dlookup db.tasks t = none →
      (AgentProduction.process_payment db c now pm t).1 =
        .ok ⟨true, t, pm, "payment_authorized"⟩ ∧
      dlookup (AgentProduction.process_payment db c now pm t).2.tasks t =
        some ⟨cart.skill_id, "payment_authorized", none, none, none, cart.amount,
              AgentProduction.default_currency, some c, some pm⟩ ∧
      (("payment_authorized" : String) ≠ "payment_required" ∧
        ("payment_authorized" : String) ≠ "working" ∧
        ("payment_authorized" : String) ≠ "completed" ∧
        ("payment_authorized" : String) ≠ "failed") ∧
      AgentProduction.get_task_status (AgentProduction.process_payment db c now pm t).2 t =
        .ok ⟨t, "payment_authorized", none, none, none, none⟩) ∧
    (∀ (st : AgentAp2.St) (c pm t : String) (cart : AgentAp2.Ap2Cart) (skill : String),
      dlookup st.cart_mandates c = some cart →
      AgentAp2.extract_skill cart.display_labels = some skill →
      (AgentAp2.process_payment st c pm t).1 =
        ⟨true, none, some t, some pm, some "payment_authorized"⟩ ∧
      dlookup (AgentAp2.process_payment st c pm t).2.tasks t =
        some ⟨skill, "payment_authorized", none, none, none, cart.total_amount, "USD",
              some c, some pm⟩ ∧
      AgentAp2.get_task_status (AgentAp2.process_payment st c pm t).2 t =
        ⟨t, "payment_authorized", none, none, none, none⟩) := by
  constructor
  · intro db c now pm t cart hcart hu he hpm ht
    have hs := AgentProduction.pp_success db c now pm t cart hcart hu he hpm ht
    have hlook : dlookup (AgentProduction.process_payment db c now pm t).2.tasks t =
        some (AgentProduction.mkPaidTask cart c pm) := by
      rw [hs]
      exact dlookup_cons_self _ _ _
    refine ⟨by rw [hs], hlook, by decide, ?_⟩
    unfold AgentProduction.get_task_status
    rw [hlook]
    rfl
  · intro st c pm t cart skill hcart hskill
    have hres : AgentAp2.process_payment st c pm t =
        (⟨true, none, some t, some pm, some "payment_authorized"⟩,
         ⟨dset st.tasks t ⟨skill, "payment_authorized", none, none, none,
            cart.total_amount, "USD", some c, some pm⟩,
          st.cart_mandates,
          dset st.payment_mandates pm ⟨c, cart.total_amount⟩⟩) := by
      unfold AgentAp2.process_payment
      rw [hcart]
      simp only [hskill]
    have hlook : dlookup (AgentAp2.process_payment st c pm t).2.tasks t =
        some ⟨skill, "payment_authorized", none, none, none, cart.total_amount, "USD",
              some c, some pm⟩ := by
      rw [hres]
      exact dlookup_dset_self _ _ _
    refine ⟨by rw [hres], hlook, ?_⟩
    unfold AgentAp2.get_task_status
    rw [hlook]
    rfl

/-- Witness for the amended claim C10: one unused, unexpired production cart,
and one ap2 cart whose label identifies `quick-consult`. -/
theorem claim_C10_witness :
    (AgentProduction.process_payment
        ⟨[], [("c1", ⟨"quick-consult", "d", 25, "USD", 100, false⟩)], []⟩
        "c1" 50 "pm1" "t1").1 = .ok ⟨true, "t1", "pm1", "payment_authorized"⟩ ∧
    dlookup (AgentProduction.process_payment
        ⟨[], [("c1", ⟨"quick-consult", "d", 25, "USD", 100, false⟩)], []⟩
        "c1" 50 "pm1" "t1").2.tasks "t1" =
      some ⟨"quick-consult", "payment_authorized", none, none, none, 25,
            AgentProduction.default_currency, some "c1", some "pm1"⟩ ∧
    AgentProduction.get_task_status (AgentProduction.process_payment
        ⟨[], [("c1", ⟨"quick-consult", "d", 25, "USD", 100, false⟩)], []⟩
        "c1" 50 "pm1" "t1").2 "t1" =
      .ok ⟨"t1", "payment_authorized", none, none, none, none⟩ ∧
    dlookup (AgentAp2.process_payment
        ⟨[], [("c1", ⟨25, "USD", ["quick-consult - help"], 100⟩)], []⟩
        "c1" "pm1" "t1").2.tasks "t1" =
      some ⟨"quick-consult", "payment_authorized", none, none, none, 25, "USD",
            some "c1", some "pm1"⟩ ∧
    AgentAp2.get_task_status (AgentAp2.process_payment
        ⟨[], [("c1", ⟨25, "USD", ["quick-consult - help"], 100⟩)], []⟩
        "c1" "pm1" "t1").2 "t1" =
      ⟨"t1", "payment_authorized", none, none, none, none⟩ := by
  have h := claim_C10_payment_authorized_task.1
    ⟨[], [("c1", ⟨"quick-consult", "d", 25, "USD", 100, false⟩)], []⟩
    "c1" 50 "pm1" "t1" ⟨"quick-consult", "d", 25, "USD", 100, false⟩
    (by decide) (by decide) (by decide) (by decide) (by decide)
  have h2 := claim_C10_payment_authorized_task.2
    ⟨[], [("c1", ⟨25, "USD", ["quick-consult - help"], 100⟩)], []⟩
    "c1" "pm1" "t1" ⟨25, "USD", ["quick-consult - help"], 100⟩ "quick-consult"
    (by decide) (by rfl)
  exact ⟨h.1, h.2.1, h.2.2.2, h2.2.1, h2.2.2⟩

end A2A
